import Mathlib

/-!
Shallow embedding of the Pi-hole FTL API client (package `client` of the
terraform-provider-pihole repository) and proofs about its specified
behaviour.  Go durations are modelled as `Int` nanoseconds, machine ints as
`Int`, JSON-decoding outcomes as `Option` values supplied by the caller
(mirroring the result of `json.Unmarshal` on the relevant body), and each
network round-trip as an oracle argument carrying the remote's response
together with an explicit trace of the requests issued.
-/

namespace Pihole

/-- Go `time.Second` in nanoseconds (`time.Duration` is an int64 nanosecond
count). -/
def second : Int := 1000000000

/-- Go `time.Minute` in nanoseconds. -/
def minute : Int := 60 * second

/-- DefaultTimeout is the default HTTP timeout for API requests (30 s). -/
def DefaultTimeout : Int := 30 * second

/-- SessionRefreshBuffer is how long before expiry the session is refreshed
(5 min). -/
def SessionRefreshBuffer : Int := 5 * minute

/-- DefaultRetryMax is the default number of retries for transient errors. -/
def DefaultRetryMax : Int := 3

/-- DefaultRetryWaitMin is the minimum wait time between retries (2 s). -/
def DefaultRetryWaitMin : Int := 2 * second

/-- DefaultRetryWaitMax is the maximum wait time between retries (10 s). -/
def DefaultRetryWaitMax : Int := 10 * second

/-- Config holds the configuration for creating a new Client (source struct
`Config`).  Zero values mean "unset", exactly as in Go. -/
structure Config where
  url : String
  password : String := ""
  tlsInsecureSkipVerify : Bool := false
  timeout : Int := 0
  retryMax : Int := 0
  retryWaitMin : Int := 0
  retryWaitMax : Int := 0
deriving DecidableEq, Repr

/-- Of Go's `url.URL` only the `Path` component is relevant to the
properties studied here; the host, scheme, and query are carried opaquely by
the remote and never inspected by the client logic under verification. -/
structure URL where
  path : String
deriving DecidableEq, Repr

/-- Client models the source struct `Client`: the normalised base path, the
configured credential and effective transport parameters, and the mutable
session fields `sid` / `sidExpiry` guarded by the RW mutex. -/
structure Client where
  baseURLPath : String
  password : String
  timeout : Int
  retryMax : Int
  retryWaitMin : Int
  retryWaitMax : Int
  tlsInsecureSkipVerify : Bool
  sid : String
  sidExpiry : Int
deriving DecidableEq, Repr

/-- The test `baseURL.Path[len(baseURL.Path)-1] != '/'` of `New`, performed
on the final byte of the path.  Since `'/'` is a single-byte character,
comparing the final `Char` agrees with Go's final-byte comparison on any
valid UTF-8 path. -/
def lastCharIsSlash (p : String) : Bool :=
  match p.data.getLast? with
  | some ch => ch = '/'
  | none => false

/-- The path-normalisation step of `New`: an empty path becomes "/api";
otherwise "/api" is appended exactly when the path does not end in a slash
(this is what the source does, verbatim). -/
def normalizeApiPath (p : String) : String :=
  if p = "" then "/api"
  else if ¬ lastCharIsSlash p then p ++ "/api"
  else p

/-- New creates a new client from a configuration (source function `New`).
The outcome of `url.Parse cfg.url` is supplied as the `parsed` oracle
(`none` = parse error), since the stdlib URL parser is outside the
repository; everything after parsing mirrors the source line by line. -/
def New (cfg : Config) (parsed : Option URL) : Except String Client :=
  if cfg.url = "" then .error "Pi-hole URL is required"
  else
    match parsed with
    | none => .error "invalid Pi-hole URL"
    | some u =>
      .ok
        { baseURLPath := normalizeApiPath u.path
          password := cfg.password
          timeout := if cfg.timeout = 0 then DefaultTimeout else cfg.timeout
          retryMax :=
            if cfg.retryMax < 0 then 0
            else if cfg.retryMax = 0 then DefaultRetryMax
            else cfg.retryMax
          retryWaitMin :=
            if cfg.retryWaitMin = 0 then DefaultRetryWaitMin else cfg.retryWaitMin
          retryWaitMax :=
            if cfg.retryWaitMax = 0 then DefaultRetryWaitMax else cfg.retryWaitMax
          tlsInsecureSkipVerify := cfg.tlsInsecureSkipVerify
          sid := ""
          sidExpiry := 0 }

/-- Claim C8: for every configuration accepted by New, a negative RetryMax
yields zero retries, an unset (zero) RetryMax yields the default of 3, a
positive RetryMax is used as given, and unset timeout / backoff bounds
receive the defaults of 30 s, 2 s and 10 s respectively. -/
theorem new_effective_parameters (cfg : Config) (u : URL) (c : Client)
    (h : New cfg (some u) = .ok c) :
    (cfg.retryMax < 0 → c.retryMax = 0) ∧
    (cfg.retryMax = 0 → c.retryMax = 3) ∧
    (0 < cfg.retryMax → c.retryMax = cfg.retryMax) ∧
    (cfg.timeout = 0 → c.timeout = 30 * second) ∧
    (cfg.timeout ≠ 0 → c.timeout = cfg.timeout) ∧
    (cfg.retryWaitMin = 0 → c.retryWaitMin = 2 * second) ∧
    (cfg.retryWaitMin ≠ 0 → c.retryWaitMin = cfg.retryWaitMin) ∧
    (cfg.retryWaitMax = 0 → c.retryWaitMax = 10 * second) ∧
    (cfg.retryWaitMax ≠ 0 → c.retryWaitMax = cfg.retryWaitMax) := by
  unfold New at h
  split at h
  · exact absurd h (by simp)
  · cases h
    refine ⟨?_, ?_, ?_, ?_, ?_, ?_, ?_, ?_, ?_⟩ <;> intro h'
    · simp [h', DefaultRetryMax]
    · simp [h', DefaultRetryMax]
    · have h1 : ¬ cfg.retryMax < 0 := by omega
      have h2 : ¬ cfg.retryMax = 0 := by omega
      simp [h1, h2]
    · simp [h', DefaultTimeout]
    · simp [h']
    · simp [h', DefaultRetryWaitMin]
    · simp [h']
    · simp [h', DefaultRetryWaitMax]
    · simp [h']

/-- Witness for C8: a configuration with explicit negative RetryMax and all
timing fields unset receives 0 retries and the documented defaults. -/
theorem new_effective_parameters_witness :
    ((-1 : Int) < 0 →
      (Client.mk "/api" "pw" (30 * second) 0 (2 * second) (10 * second)
        false "" 0).retryMax = 0) ∧
    ((-1 : Int) = 0 →
      (Client.mk "/api" "pw" (30 * second) 0 (2 * second) (10 * second)
        false "" 0).retryMax = 3) ∧
    ((0 : Int) < -1 →
      (Client.mk "/api" "pw" (30 * second) 0 (2 * second) (10 * second)
        false "" 0).retryMax = -1) ∧
    ((0 : Int) = 0 →
      (Client.mk "/api" "pw" (30 * second) 0 (2 * second) (10 * second)
        false "" 0).timeout = 30 * second) ∧
    ((0 : Int) ≠ 0 →
      (Client.mk "/api" "pw" (30 * second) 0 (2 * second) (10 * second)
        false "" 0).timeout = 0) ∧
    ((0 : Int) = 0 →
      (Client.mk "/api" "pw" (30 * second) 0 (2 * second) (10 * second)
        false "" 0).retryWaitMin = 2 * second) ∧
    ((0 : Int) ≠ 0 →
      (Client.mk "/api" "pw" (30 * second) 0 (2 * second) (10 * second)
        false "" 0).retryWaitMin = 0) ∧
    ((0 : Int) = 0 →
      (Client.mk "/api" "pw" (30 * second) 0 (2 * second) (10 * second)
        false "" 0).retryWaitMax = 10 * second) ∧
    ((0 : Int) ≠ 0 →
      (Client.mk "/api" "pw" (30 * second) 0 (2 * second) (10 * second)
        false "" 0).retryWaitMax = 0) :=
  new_effective_parameters
    { url := "http://x", password := "pw", retryMax := -1 }
    { path := "" }
    (Client.mk "/api" "pw" (30 * second) 0 (2 * second) (10 * second)
      false "" 0)
    rfl

/-- Claim C2 (code bug in the source): New applied to the URL
"http://pi.hole/api" — its own test suite's "valid config already has /api"
case, parsed path "/api" — produces the base path "/api/api" instead of
leaving the path unchanged, because the source appends "/api" whenever the
final byte is not a slash, even when the "/api" segment is already present.
A trailing-slash path is conversely left without any "/api" at all. -/
theorem new_doubles_api_suffix :
    (∃ c, New { url := "http://pi.hole/api", password := "test" }
        (some { path := "/api" }) = .ok c ∧ c.baseURLPath = "/api/api") ∧
    (∃ c, New { url := "http://pi.hole/", password := "test" }
        (some { path := "/" }) = .ok c ∧ c.baseURLPath = "/") := by
  constructor
  · exact ⟨_, rfl, by decide⟩
  · exact ⟨_, rfl, by decide⟩

/-- SessionInfo mirrors the inner `session` object of `AuthResponse`
(fields `valid`, `totp`, `sid`, `csrf`, `validity` in seconds, `message`);
the unused JSON float `took` of the envelope is omitted. -/
structure SessionInfo where
  valid : Bool
  totp : Bool := false
  sid : String
  csrf : String := ""
  validity : Int := 0
  message : String := ""
deriving DecidableEq, Repr

/-- AuthResponse represents the response from the authentication endpoint
(source struct `AuthResponse`, minus the unused `took` float). -/
structure AuthResponse where
  session : SessionInfo
deriving DecidableEq, Repr

/-- The inner `error` object of `ErrorResponse`: key, message, and optional
hint. -/
structure ErrorDetail where
  key : String
  message : String
  hint : Option String := none
deriving DecidableEq, Repr

/-- ErrorResponse represents an error response from the API (source struct
`ErrorResponse`, minus the unused `took` float). -/
structure ErrorResponse where
  error : ErrorDetail
deriving DecidableEq, Repr

/-- An HTTP response as the client observes it: status code and raw body. -/
structure HttpResponse where
  status : Nat
  body : String
deriving DecidableEq, Repr

/-- The network and JSON-decoding outcomes that one run of
`authenticateLocked` can observe, supplied as oracles: the GET probe of the
`auth` endpoint (`none` = transport or read error), the result of
`json.Unmarshal` of the probe body into `AuthResponse`, the POST login
response, and the results of unmarshalling the login body into
`ErrorResponse` resp. `AuthResponse`. -/
structure AuthEnv where
  probeResp : Option HttpResponse
  probeAuth : Option AuthResponse
  loginResp : Option HttpResponse
  loginErr : Option ErrorResponse := none
  loginAuth : Option AuthResponse
deriving DecidableEq, Repr

/-- The two kinds of round-trip the authentication protocol performs against
the session endpoint: the unauthenticated GET probe and the POST login. -/
inductive AuthReq where
  | probe
  | login
deriving DecidableEq, Repr

/-- Number of login round-trips in a request trace. -/
def countLogins : List AuthReq → Nat
  | [] => 0
  | AuthReq.login :: rest => countLogins rest + 1
  | AuthReq.probe :: rest => countLogins rest

/-- authenticateLocked mirrors the source function of the same name: probe
the session endpoint; adopt the session if the remote already reports it
valid; otherwise fail without a password, or POST the password and adopt the
returned session on success.  Returns the error (if any), the client state
after the run (the session fields are assigned only on the two success
paths, exactly as in the source), and the trace of round-trips issued. -/
def authenticateLocked (c : Client) (now : Int) (env : AuthEnv) :
    Option String × Client × List AuthReq :=
  match env.probeResp with
  | none => (some "failed to check auth status", c, [AuthReq.probe])
  | some _ =>
    match env.probeAuth with
    | none => (some "failed to parse auth response", c, [AuthReq.probe])
    | some authResp =>
      if authResp.session.valid then
        (none,
         { c with sid := authResp.session.sid
                  sidExpiry := now + authResp.session.validity * second },
         [AuthReq.probe])
      else if c.password = "" then
        (some "authentication required but no password provided", c,
         [AuthReq.probe])
      else
        match env.loginResp with
        | none => (some "failed to authenticate", c, [AuthReq.probe, AuthReq.login])
        | some lresp =>
          if lresp.status ≠ 200 then
            match env.loginErr with
            | some errResp =>
              if errResp.error.message ≠ "" then
                (some ("authentication failed: " ++ errResp.error.message), c,
                 [AuthReq.probe, AuthReq.login])
              else
                (some ("authentication failed with status " ++
                    toString lresp.status ++ ": " ++ lresp.body), c,
                 [AuthReq.probe, AuthReq.login])
            | none =>
              (some ("authentication failed with status " ++
                  toString lresp.status ++ ": " ++ lresp.body), c,
               [AuthReq.probe, AuthReq.login])
          else
            match env.loginAuth with
            | none => (some "failed to parse login response", c,
                       [AuthReq.probe, AuthReq.login])
            | some authResp2 =>
              if ¬ authResp2.session.valid then
                (some "authentication failed: invalid session", c,
                 [AuthReq.probe, AuthReq.login])
              else
                (none,
                 { c with sid := authResp2.session.sid
                          sidExpiry := now + authResp2.session.validity * second },
                 [AuthReq.probe, AuthReq.login])

/-- Authenticate obtains a new session ID (source method `Authenticate`):
it takes the write lock and unconditionally runs `authenticateLocked`. -/
def Authenticate (c : Client) (now : Int) (env : AuthEnv) :
    Option String × Client × List AuthReq :=
  authenticateLocked c now env

/-- The validity check of `ensureAuthenticated`:
`c.sid != "" && time.Now().Add(SessionRefreshBuffer).Before(c.sidExpiry)`. -/
def sessionIsValid (c : Client) (now : Int) : Bool :=
  c.sid ≠ "" && (now + SessionRefreshBuffer < c.sidExpiry)

/-- ensureAuthenticated mirrors the source: check validity under the read
lock; if stale, take the write lock, re-check (double-checked locking), and
re-run the authentication protocol.  In this sequential embedding the
re-check reads the same state as the first check. -/
def ensureAuthenticated (c : Client) (now : Int) (env : AuthEnv) :
    Option String × Client × List AuthReq :=
  if sessionIsValid c now then (none, c, [])
  else if sessionIsValid c now then (none, c, [])
  else authenticateLocked c now env

/-- A stale client: no session yet. -/
def c0 : Client :=
  Client.mk "/api" "pw" (30 * second) 3 (2 * second) (10 * second) false "" 0

/-- An environment in which the probe reports no valid session and the
password login succeeds with a one-hour validity. -/
def envLogin : AuthEnv :=
  { probeResp := some { status := 200, body := "" }
    probeAuth := some { session := { valid := false, sid := "" } }
    loginResp := some { status := 200, body := "" }
    loginAuth := some { session := { valid := true, sid := "s1", validity := 3600 } } }

/-- Claim C1 is false for the exported authenticate operation: the first
call leaves a session expiring 3600 s away (far beyond the 300 s renewal
buffer), yet an immediately following second call issues another login
round-trip, for a total of two across the two calls rather than one —
`Authenticate` re-runs the protocol unconditionally. -/
theorem authenticate_twice_two_logins :
    countLogins (Authenticate c0 0 envLogin).2.2 = 1 ∧
    sessionIsValid (Authenticate c0 0 envLogin).2.1 0 = true ∧
    countLogins ((Authenticate c0 0 envLogin).2.2 ++
      (Authenticate (Authenticate c0 0 envLogin).2.1 0 envLogin).2.2) = 2 := by
  decide

/-- ensureAuthenticated is a no-op on a currently valid session. -/
theorem ensureAuthenticated_of_valid (c : Client) (now : Int) (env : AuthEnv)
    (h : sessionIsValid c now = true) :
    ensureAuthenticated c now env = (none, c, []) := by
  unfold ensureAuthenticated
  simp [h]

/-- Claim C1 as amended: the idempotence holds for `ensureAuthenticated`,
the gate run before every authenticated request (the exported `Authenticate`
re-runs the login protocol unconditionally): if a call performed one login
round-trip and left a session whose expiry is more than the renewal buffer
in the future, an immediately following call performs no further round-trip,
so exactly one login is issued across the two calls. -/
theorem ensureAuthenticated_idempotent (c : Client) (now : Int)
    (env env' : AuthEnv)
    (h1 : countLogins (ensureAuthenticated c now env).2.2 = 1)
    (h2 : sessionIsValid (ensureAuthenticated c now env).2.1 now = true) :
    countLogins ((ensureAuthenticated c now env).2.2 ++
      (ensureAuthenticated (ensureAuthenticated c now env).2.1 now env').2.2)
      = 1 := by
  rw [ensureAuthenticated_of_valid _ _ _ h2]
  simpa using h1

/-- Witness for the amended C1: from a stale session, one call logs in once
and yields a fresh session; the second call adds nothing. -/
theorem ensureAuthenticated_idempotent_witness :
    countLogins ((ensureAuthenticated c0 0 envLogin).2.2 ++
      (ensureAuthenticated (ensureAuthenticated c0 0 envLogin).2.1 0
        envLogin).2.2) = 1 :=
  ensureAuthenticated_idempotent c0 0 envLogin envLogin (by decide) (by decide)

/-- Every error return of `authenticateLocked` leaves the client record
exactly as it was: the session fields are written only on the success
paths. -/
theorem authenticateLocked_error_state (c : Client) (now : Int)
    (env : AuthEnv) (e : String)
    (h : (authenticateLocked c now env).1 = some e) :
    (authenticateLocked c now env).2.1 = c := by
  unfold authenticateLocked at h ⊢
  rcases env with ⟨probeResp, probeAuth, loginResp, loginErr, loginAuth⟩
  cases probeResp <;> cases probeAuth <;> cases loginResp <;>
    cases loginErr <;> cases loginAuth <;>
    simp_all <;> split_ifs <;> simp_all

/-- Claim C10: if Authenticate — or the renewal run inside
ensureAuthenticated — returns an error, the stored session state is exactly
what it was before the call: token and expiry are written only after a fully
successful authentication, so a failed renewal never clears or replaces an
existing session. -/
theorem auth_failure_preserves_session (c : Client) (now : Int)
    (env : AuthEnv) (e : String) :
    ((Authenticate c now env).1 = some e →
      (Authenticate c now env).2.1 = c) ∧
    ((ensureAuthenticated c now env).1 = some e →
      (ensureAuthenticated c now env).2.1 = c) := by
  constructor
  · exact fun h => authenticateLocked_error_state c now env e h
  · intro h
    unfold ensureAuthenticated at h ⊢
    by_cases hv : sessionIsValid c now = true
    · simp [hv] at h
    · simp only [Bool.not_eq_true] at hv
      simp only [hv, Bool.false_eq_true, if_false] at h ⊢
      exact authenticateLocked_error_state c now env e h

/-- An environment whose probe round-trip fails at the transport. -/
def envProbeFail : AuthEnv :=
  { probeResp := none
    probeAuth := none
    loginResp := none
    loginAuth := none }

/-- Witness for C10: with a failing probe, both operations report the error
and leave the (stale) session of `c0` untouched. -/
theorem auth_failure_preserves_session_witness :
    (Authenticate c0 0 envProbeFail).2.1 = c0 ∧
    (ensureAuthenticated c0 0 envProbeFail).2.1 = c0 :=
  ⟨(auth_failure_preserves_session c0 0 envProbeFail
      "failed to check auth status").1 (by decide),
   (auth_failure_preserves_session c0 0 envProbeFail
      "failed to check auth status").2 (by decide)⟩

/-- Go's `url.PathEscape`, modelled as the identity: every literal used in
this development is escape-free, and none of the properties under study
depend on percent-encoding. -/
def pathEscape (s : String) : String := s

/-- Group represents a Pi-hole group (source struct `Group`). -/
structure Group where
  id : Int := 0
  name : String
  enabled : Bool := false
  description : String := ""
  dateAdded : Int := 0
  dateModified : Int := 0
deriving DecidableEq, Repr

/-- Domain represents a Pi-hole domain entry, identified by the triple
type / kind / domain (source struct `Domain`). -/
structure Domain where
  id : Int := 0
  domain : String
  type : String
  kind : String
  enabled : Bool := false
  comment : String := ""
  groups : List Int := []
  dateAdded : Int := 0
  dateModified : Int := 0
deriving DecidableEq, Repr

/-- PiholeClient represents a Pi-hole client configuration (source struct
`PiholeClient`). -/
structure PiholeClient where
  id : Int := 0
  client : String
  comment : String := ""
  groups : List Int := []
  dateAdded : Int := 0
  dateModified : Int := 0
deriving DecidableEq, Repr

/-- PiholeList represents a Pi-hole blocklist/allowlist (source struct
`List`; renamed here to avoid the Lean builtin). -/
structure PiholeList where
  id : Int := 0
  address : String
  type : String
  enabled : Bool := false
  comment : String := ""
  groups : List Int := []
  dateAdded : Int := 0
  dateModified : Int := 0
  number : Int := 0
  invalidDomains : Int := 0
  status : Int := 0
  abpEntries : Int := 0
deriving DecidableEq, Repr

/-- A request in the trace of a resource operation: HTTP verb plus relative
path (which may embed a raw query string, as in the source). -/
inductive Req where
  | get : String → Req
  | post : String → Req
  | put : String → Req
  | delete : String → Req
deriving DecidableEq, Repr

/-- The path built by `GetGroups`: "groups" or "groups/{escaped name}". -/
def GetGroupsPath (name : String) : String :=
  if name = "" then "groups" else "groups/" ++ pathEscape name

/-- The path built by `GetClients`. -/
def GetClientsPath (client : String) : String :=
  if client = "" then "clients" else "clients/" ++ pathEscape client

/-- The path built by `GetDomains` from zero or more filter segments. -/
def GetDomainsPath (domainType kind domain : String) : String :=
  let segments := ["domains"]
  let segments := if domainType ≠ "" then segments ++ [domainType] else segments
  let segments := if kind ≠ "" then segments ++ [kind] else segments
  let segments := if domain ≠ "" then segments ++ [pathEscape domain] else segments
  String.intercalate "/" segments

/-- The path built by `GetLists`: "lists[/{escaped address}][?type={type}]". -/
def GetListsPath (listType address : String) : String :=
  let path := if address = "" then "lists" else "lists/" ++ pathEscape address
  if listType ≠ "" then path ++ "?type=" ++ listType else path

/-- GetGroup retrieves a specific group by name (source method `GetGroup`):
given the parsed response of the filtered-list call, it returns `none` on an
empty list and otherwise the FIRST entry — there is no exact-match scan. -/
def GetGroup (name : String) (resp : List Group) : Option Group :=
  match resp with
  | [] => none
  | g :: _ => some g

/-- GetClient retrieves a specific client (source method `GetClient`): like
`GetGroup`, it returns the first entry of the filtered response without an
exact-match scan. -/
def GetClient (client : String) (resp : List PiholeClient) :
    Option PiholeClient :=
  match resp with
  | [] => none
  | pc :: _ => some pc

/-- GetDomain retrieves a specific domain (source method `GetDomain`): it
linear-scans the filtered response for the first entry whose full identity
triple matches exactly. -/
def GetDomain (domainType kind domain : String) (resp : List Domain) :
    Option Domain :=
  resp.find? fun d => d.domain == domain && d.type == domainType && d.kind == kind

/-- GetList retrieves a specific list (source method `GetList`): it
linear-scans the filtered response for the first entry whose address and
type match exactly. -/
def GetList (listType address : String) (resp : List PiholeList) :
    Option PiholeList :=
  resp.find? fun l => l.address == address && l.type == listType

/-- The entry the counterexample feeds to `GetGroup`: its name is not the
requested one. -/
def groupOther : Group := { name := "Other", enabled := true }

/-- Claim C3 is false for GetGroup (and likewise GetClient): when the
remote's filtered-list endpoint returns an entry whose identity does not
equal the requested one, GetGroup returns that entry anyway — it takes the
first element without the exact-match scan that GetDomain and GetList
perform. -/
theorem getGroup_returns_nonmatching_entry :
    GetGroup "Default" [groupOther] = some groupOther ∧
    groupOther.name ≠ "Default" := by
  decide

/-- Claim C3 as amended: only the Get-single operations on domains and lists
(GetDomain, GetList) scan for an entry whose full identity tuple matches the
request exactly; GetGroup and GetClient return the first entry of the
filtered response whatever its identity. -/
theorem get_single_exact_match_amended
    (domainType kind domain : String) (dresp : List Domain)
    (listType address : String) (lresp : List PiholeList)
    (name : String) (g : Group) (gs : List Group)
    (clientStr : String) (pc : PiholeClient) (pcs : List PiholeClient) :
    (∀ d, GetDomain domainType kind domain dresp = some d →
      d.domain = domain ∧ d.type = domainType ∧ d.kind = kind) ∧
    (∀ l, GetList listType address lresp = some l →
      l.address = address ∧ l.type = listType) ∧
    GetGroup name (g :: gs) = some g ∧
    GetClient clientStr (pc :: pcs) = some pc := by
  refine ⟨?_, ?_, rfl, rfl⟩
  · intro d hd
    have := List.find?_some hd
    simp only [Bool.and_eq_true, beq_iff_eq] at this
    exact ⟨this.1.1, this.1.2, this.2⟩
  · intro l hl
    have := List.find?_some hl
    simp only [Bool.and_eq_true, beq_iff_eq] at this
    exact ⟨this.1, this.2⟩

/-- A domain entry used by the C3 and C4 witnesses. -/
def domainAds : Domain :=
  { domain := "ads.example.com", type := "deny", kind := "exact", enabled := true }

/-- A list entry used by the C3 and C4 witnesses. -/
def listBlock : PiholeList :=
  { address := "https://example.com/block.txt", type := "block", enabled := true }

/-- Witness for the amended C3: concrete exact-match lookups and first-entry
returns. -/
theorem get_single_exact_match_amended_witness :
    (domainAds.domain = "ads.example.com" ∧ domainAds.type = "deny" ∧
      domainAds.kind = "exact") ∧
    (listBlock.address = "https://example.com/block.txt" ∧
      listBlock.type = "block") ∧
    GetGroup "Default" [groupOther] = some groupOther ∧
    GetClient "10.0.0.1" [PiholeClient.mk 1 "10.0.0.2" "" [] 0 0] =
      some (PiholeClient.mk 1 "10.0.0.2" "" [] 0 0) := by
  have h := get_single_exact_match_amended "deny" "exact" "ads.example.com"
    [domainAds] "block" "https://example.com/block.txt" [listBlock]
    "Default" groupOther [] "10.0.0.1" (PiholeClient.mk 1 "10.0.0.2" "" [] 0 0) []
  exact ⟨h.1 domainAds (by decide), h.2.1 listBlock (by decide), h.2.2.1, h.2.2.2⟩

/-- UpdateGroup (source method `UpdateGroup`): PUT to the path keyed by the
original name; if the echoed group array is empty (happens on rename), fetch
the group once by its NEW name and return that, erring only when the fetch
errs or finds nothing.  `putResult` and `fetchResult` are the oracles for
the two round-trips (transport/parse error, or the parsed entity array). -/
def UpdateGroup (name : String) (group : Group)
    (putResult : Except String (List Group))
    (fetchResult : Except String (List Group)) :
    Except String Group × List Req :=
  let path := "groups/" ++ pathEscape name
  match putResult with
  | .error e => (.error e, [Req.put path])
  | .ok groups =>
    match groups with
    | [] =>
      let fpath := GetGroupsPath group.name
      match fetchResult with
      | .error e => (.error ("failed to fetch renamed group: " ++ e),
                     [Req.put path, Req.get fpath])
      | .ok fetched =>
        match GetGroup group.name fetched with
        | none => (.error "no group returned in response and renamed group not found",
                   [Req.put path, Req.get fpath])
        | some updated => (.ok updated, [Req.put path, Req.get fpath])
    | g :: _ => (.ok g, [Req.put path])

/-- UpdateClient (source method `UpdateClient`): PUT keyed by the original
client string; on an empty echo, fetch once by the new client string. -/
def UpdateClient (originalClient : String) (pc : PiholeClient)
    (putResult : Except String (List PiholeClient))
    (fetchResult : Except String (List PiholeClient)) :
    Except String PiholeClient × List Req :=
  let path := "clients/" ++ pathEscape originalClient
  match putResult with
  | .error e => (.error e, [Req.put path])
  | .ok clients =>
    match clients with
    | [] =>
      let fpath := GetClientsPath pc.client
      match fetchResult with
      | .error e => (.error ("failed to fetch updated client: " ++ e),
                     [Req.put path, Req.get fpath])
      | .ok fetched =>
        match GetClient pc.client fetched with
        | none => (.error "no client returned in response and updated client not found",
                   [Req.put path, Req.get fpath])
        | some updated => (.ok updated, [Req.put path, Req.get fpath])
    | u :: _ => (.ok u, [Req.put path])

/-- UpdateDomain (source method `UpdateDomain`): PUT keyed by the original
type/kind/domain triple; on an empty echo, fetch once by the new triple
(via the exact-match GetDomain). -/
def UpdateDomain (originalType originalKind originalDomain : String)
    (domain : Domain)
    (putResult : Except String (List Domain))
    (fetchResult : Except String (List Domain)) :
    Except String Domain × List Req :=
  let path := "domains/" ++ originalType ++ "/" ++ originalKind ++ "/" ++
    pathEscape originalDomain
  match putResult with
  | .error e => (.error e, [Req.put path])
  | .ok domains =>
    match domains with
    | [] =>
      let fpath := GetDomainsPath domain.type domain.kind domain.domain
      match fetchResult with
      | .error e => (.error ("failed to fetch updated domain: " ++ e),
                     [Req.put path, Req.get fpath])
      | .ok fetched =>
        match GetDomain domain.type domain.kind domain.domain fetched with
        | none => (.error "no domain returned in response and updated domain not found",
                   [Req.put path, Req.get fpath])
        | some updated => (.ok updated, [Req.put path, Req.get fpath])
    | d :: _ => (.ok d, [Req.put path])

/-- UpdateList (source method `UpdateList`): PUT keyed by the original
address and type; on an empty echo, fetch once by the new pair (via the
exact-match GetList). -/
def UpdateList (originalType originalAddress : String) (l : PiholeList)
    (putResult : Except String (List PiholeList))
    (fetchResult : Except String (List PiholeList)) :
    Except String PiholeList × List Req :=
  let path := "lists/" ++ pathEscape originalAddress ++ "?type=" ++ originalType
  match putResult with
  | .error e => (.error e, [Req.put path])
  | .ok lists =>
    match lists with
    | [] =>
      let fpath := GetListsPath l.type l.address
      match fetchResult with
      | .error e => (.error ("failed to fetch updated list: " ++ e),
                     [Req.put path, Req.get fpath])
      | .ok fetched =>
        match GetList l.type l.address fetched with
        | none => (.error "no list returned in response and updated list not found",
                   [Req.put path, Req.get fpath])
        | some updated => (.ok updated, [Req.put path, Req.get fpath])
    | u :: _ => (.ok u, [Req.put path])

/-- Claim C4: for every update of a group, client, domain, or list whose
immediate remote response carries an empty entity array, the operation
performs exactly one follow-up fetch, keyed by the NEW identity, and returns
that fetch's result; an error is surfaced only when the re-fetch also finds
no matching entity. -/
theorem update_empty_echo_refetches
    (name : String) (group : Group) (gfetch : List Group)
    (originalClient : String) (pc : PiholeClient) (cfetch : List PiholeClient)
    (ot ok od : String) (domain : Domain) (dfetch : List Domain)
    (olt ola : String) (l : PiholeList) (lfetch : List PiholeList) :
    ((UpdateGroup name group (.ok []) (.ok gfetch)).2 =
        [Req.put ("groups/" ++ pathEscape name), Req.get (GetGroupsPath group.name)] ∧
      (∀ u, GetGroup group.name gfetch = some u →
        (UpdateGroup name group (.ok []) (.ok gfetch)).1 = .ok u) ∧
      (GetGroup group.name gfetch = none →
        (UpdateGroup name group (.ok []) (.ok gfetch)).1 =
          .error "no group returned in response and renamed group not found")) ∧
    ((UpdateClient originalClient pc (.ok []) (.ok cfetch)).2 =
        [Req.put ("clients/" ++ pathEscape originalClient),
         Req.get (GetClientsPath pc.client)] ∧
      (∀ u, GetClient pc.client cfetch = some u →
        (UpdateClient originalClient pc (.ok []) (.ok cfetch)).1 = .ok u) ∧
      (GetClient pc.client cfetch = none →
        (UpdateClient originalClient pc (.ok []) (.ok cfetch)).1 =
          .error "no client returned in response and updated client not found")) ∧
    ((UpdateDomain ot ok od domain (.ok []) (.ok dfetch)).2 =
        [Req.put ("domains/" ++ ot ++ "/" ++ ok ++ "/" ++ pathEscape od),
         Req.get (GetDomainsPath domain.type domain.kind domain.domain)] ∧
      (∀ u, GetDomain domain.type domain.kind domain.domain dfetch = some u →
        (UpdateDomain ot ok od domain (.ok []) (.ok dfetch)).1 = .ok u) ∧
      (GetDomain domain.type domain.kind domain.domain dfetch = none →
        (UpdateDomain ot ok od domain (.ok []) (.ok dfetch)).1 =
          .error "no domain returned in response and updated domain not found")) ∧
    ((UpdateList olt ola l (.ok []) (.ok lfetch)).2 =
        [Req.put ("lists/" ++ pathEscape ola ++ "?type=" ++ olt),
         Req.get (GetListsPath l.type l.address)] ∧
      (∀ u, GetList l.type l.address lfetch = some u →
        (UpdateList olt ola l (.ok []) (.ok lfetch)).1 = .ok u) ∧
      (GetList l.type l.address lfetch = none →
        (UpdateList olt ola l (.ok []) (.ok lfetch)).1 =
          .error "no list returned in response and updated list not found")) := by
  refine ⟨⟨?_, ?_, ?_⟩, ⟨?_, ?_, ?_⟩, ⟨?_, ?_, ?_⟩, ⟨?_, ?_, ?_⟩⟩
  · cases h : GetGroup group.name gfetch <;> simp [UpdateGroup, h]
  · intro u hu; unfold UpdateGroup; simp [hu]
  · intro hu; unfold UpdateGroup; simp [hu]
  · cases h : GetClient pc.client cfetch <;> simp [UpdateClient, h]
  · intro u hu; unfold UpdateClient; simp [hu]
  · intro hu; unfold UpdateClient; simp [hu]
  · cases h : GetDomain domain.type domain.kind domain.domain dfetch <;>
      simp [UpdateDomain, h]
  · intro u hu; unfold UpdateDomain; simp [hu]
  · intro hu; unfold UpdateDomain; simp [hu]
  · cases h : GetList l.type l.address lfetch <;> simp [UpdateList, h]
  · intro u hu; unfold UpdateList; simp [hu]
  · intro hu; unfold UpdateList; simp [hu]

/-- Witness for C4: renaming a group to "NewName" with an empty echo
triggers the single follow-up fetch by the new name, and likewise for the
other three entity families at concrete inputs. -/
theorem update_empty_echo_refetches_witness :
    (UpdateGroup "Old" (Group.mk 1 "NewName" true "" 0 0) (.ok [])
        (.ok [Group.mk 1 "NewName" true "" 0 0])).1 =
      .ok (Group.mk 1 "NewName" true "" 0 0) ∧
    (UpdateClient "10.0.0.1" (PiholeClient.mk 1 "10.0.0.9" "" [] 0 0) (.ok [])
        (.ok [])).1 =
      .error "no client returned in response and updated client not found" ∧
    (UpdateDomain "deny" "exact" "old.example.com" domainAds (.ok [])
        (.ok [domainAds])).1 = .ok domainAds ∧
    (UpdateList "allow" "https://old.example.com/a.txt" listBlock (.ok [])
        (.ok [listBlock])).1 = .ok listBlock := by
  have hg := update_empty_echo_refetches "Old" (Group.mk 1 "NewName" true "" 0 0)
    [Group.mk 1 "NewName" true "" 0 0] "10.0.0.1" (PiholeClient.mk 1 "10.0.0.9" "" [] 0 0)
    [] "deny" "exact" "old.example.com" domainAds [domainAds]
    "allow" "https://old.example.com/a.txt" listBlock [listBlock]
  exact ⟨hg.1.2.1 (Group.mk 1 "NewName" true "" 0 0) (by decide),
         hg.2.1.2.2 (by decide),
         hg.2.2.1.2.1 domainAds (by decide),
         hg.2.2.2.2.1 listBlock (by decide)⟩

/-- CreateGroup (source method `CreateGroup`): no validation of the group's
fields is performed; the POST is issued unconditionally, and an empty echo
is a hard error. -/
def CreateGroup (group : Group)
    (postResult : Except String (List Group)) :
    Except String Group × List Req :=
  match postResult with
  | .error e => (.error e, [Req.post "groups"])
  | .ok groups =>
    match groups with
    | [] => (.error "no group returned in response", [Req.post "groups"])
    | g :: _ => (.ok g, [Req.post "groups"])

/-- CreateClient (source method `CreateClient`): no validation of the
client's fields is performed; the POST is issued unconditionally. -/
def CreateClient (pc : PiholeClient)
    (postResult : Except String (List PiholeClient)) :
    Except String PiholeClient × List Req :=
  match postResult with
  | .error e => (.error e, [Req.post "clients"])
  | .ok clients =>
    match clients with
    | [] => (.error "no client returned in response", [Req.post "clients"])
    | c :: _ => (.ok c, [Req.post "clients"])

/-- CreateDomain (source method `CreateDomain`): errs before any request
when the type or kind is empty (the domain literal itself is NOT checked);
otherwise POSTs to "domains/{type}/{kind}". -/
def CreateDomain (domain : Domain)
    (postResult : Except String (List Domain)) :
    Except String Domain × List Req :=
  if domain.type = "" ∨ domain.kind = "" then
    (.error "domain type and kind are required", [])
  else
    let path := "domains/" ++ domain.type ++ "/" ++ domain.kind
    match postResult with
    | .error e => (.error e, [Req.post path])
    | .ok domains =>
      match domains with
      | [] => (.error "no domain returned in response", [Req.post path])
      | d :: _ => (.ok d, [Req.post path])

/-- CreateList (source method `CreateList`): errs before any request when
the type is empty (the address is NOT checked); otherwise POSTs to
"lists?type={type}". -/
def CreateList (l : PiholeList)
    (postResult : Except String (List PiholeList)) :
    Except String PiholeList × List Req :=
  if l.type = "" then
    (.error "list type is required", [])
  else
    let path := "lists?type=" ++ l.type
    match postResult with
    | .error e => (.error e, [Req.post path])
    | .ok lists =>
      match lists with
      | [] => (.error "no list returned in response", [Req.post path])
      | u :: _ => (.ok u, [Req.post path])

/-- Claim C5 is false: CreateClient with an empty identity-defining client
string issues the POST anyway — no local validation error precedes the
network request (its trace is non-empty). -/
theorem createClient_posts_empty_identity :
    (CreateClient { client := "" } (.ok [])).2 = [Req.post "clients"] ∧
    (CreateClient { client := "" } (.ok [])).2 ≠ [] := by
  decide

/-- Claim C5 as amended: only CreateDomain and CreateList validate before
the network request, and only their path-scoping fields (domain type and
kind; list type): an empty such field yields an error with no request
issued.  CreateGroup and CreateClient always issue the POST, as does
CreateDomain with an empty domain literal (given non-empty type and kind)
and CreateList with an empty address (given a non-empty type). -/
theorem create_validation_amended (group : Group) (pc : PiholeClient)
    (domain : Domain) (l : PiholeList)
    (gr : Except String (List Group)) (cr : Except String (List PiholeClient))
    (dr : Except String (List Domain)) (lr : Except String (List PiholeList)) :
    (domain.type = "" ∨ domain.kind = "" →
      CreateDomain domain dr = (.error "domain type and kind are required", [])) ∧
    (domain.type ≠ "" → domain.kind ≠ "" →
      (CreateDomain domain dr).2 =
        [Req.post ("domains/" ++ domain.type ++ "/" ++ domain.kind)]) ∧
    (l.type = "" →
      CreateList l lr = (.error "list type is required", [])) ∧
    (l.type ≠ "" →
      (CreateList l lr).2 = [Req.post ("lists?type=" ++ l.type)]) ∧
    (CreateGroup group gr).2 = [Req.post "groups"] ∧
    (CreateClient pc cr).2 = [Req.post "clients"] := by
  refine ⟨?_, ?_, ?_, ?_, ?_, ?_⟩
  · intro h; unfold CreateDomain; simp [h]
  · intro h1 h2
    unfold CreateDomain
    rw [if_neg (by simp [h1, h2])]
    cases dr with
    | error e => rfl
    | ok ds => cases ds <;> rfl
  · intro h; unfold CreateList; simp [h]
  · intro h
    unfold CreateList
    rw [if_neg h]
    cases lr with
    | error e => rfl
    | ok ls => cases ls <;> rfl
  · unfold CreateGroup
    cases gr with
    | error e => rfl
    | ok gs => cases gs <;> rfl
  · unfold CreateClient
    cases cr with
    | error e => rfl
    | ok cs => cases cs <;> rfl

/-- Witness for the amended C5: a domain with empty kind is rejected before
any request; a well-formed domain, an empty-address list with a type, an
empty-named group, and an empty client string all reach the network. -/
theorem create_validation_amended_witness :
    CreateDomain (Domain.mk 0 "x.com" "deny" "" false "" [] 0 0) (.ok []) =
      (.error "domain type and kind are required", []) ∧
    (CreateDomain domainAds (.ok [domainAds])).2 =
      [Req.post "domains/deny/exact"] ∧
    CreateList (PiholeList.mk 0 "a" "" false "" [] 0 0 0 0 0 0) (.ok []) =
      (.error "list type is required", []) ∧
    (CreateList listBlock (.ok [listBlock])).2 = [Req.post "lists?type=block"] ∧
    (CreateGroup (Group.mk 0 "" false "" 0 0) (.ok [])).2 = [Req.post "groups"] ∧
    (CreateClient (PiholeClient.mk 0 "" "" [] 0 0) (.ok [])).2 =
      [Req.post "clients"] := by
  have h1 := create_validation_amended (Group.mk 0 "" false "" 0 0)
    (PiholeClient.mk 0 "" "" [] 0 0) (Domain.mk 0 "x.com" "deny" "" false "" [] 0 0)
    (PiholeList.mk 0 "a" "" false "" [] 0 0 0 0 0 0)
    (.ok []) (.ok []) (.ok []) (.ok [])
  have h2 := create_validation_amended (Group.mk 0 "" false "" 0 0)
    (PiholeClient.mk 0 "" "" [] 0 0) domainAds listBlock
    (.ok []) (.ok []) (.ok [domainAds]) (.ok [listBlock])
  exact ⟨h1.1 (by decide), h2.2.1 (by decide) (by decide),
         h1.2.2.1 (by decide), h2.2.2.2.1 (by decide),
         h1.2.2.2.2.1, h1.2.2.2.2.2⟩

/-- The structured error string `Request` builds from a decoded envelope:
"API error [key]: message" plus " (hint: h)" when a hint is present. -/
def apiErrorMessage (e : ErrorResponse) : String :=
  let hintStr :=
    match e.error.hint with
    | some h => " (hint: " ++ h ++ ")"
    | none => ""
  "API error [" ++ e.error.key ++ "]: " ++ e.error.message ++ hintStr

/-- The raw error string `Request` builds when the envelope is unusable:
"API request failed with status {code}: {body}". -/
def rawErrorMessage (status : Nat) (body : String) : String :=
  "API request failed with status " ++ toString status ++ ": " ++ body

/-- The response-classification tail of `Request` (source lines following
`if resp.StatusCode >= 400`): the structured error is raised only when
`json.Unmarshal` of the body into `ErrorResponse` succeeded AND the decoded
message is non-empty; otherwise the raw status and body are embedded.  On
status < 400 the raw body bytes are returned. -/
def handleResponse (status : Nat) (body : String)
    (decoded : Option ErrorResponse) : Except String String :=
  if status ≥ 400 then
    match decoded with
    | some errResp =>
      if errResp.error.message ≠ "" then .error (apiErrorMessage errResp)
      else .error (rawErrorMessage status body)
    | none => .error (rawErrorMessage status body)
  else .ok body

/-- Request makes an authenticated API request (source method `Request`):
ensure authentication, dispatch (the transport outcome is the `resp`
oracle, `none` = transport failure), and classify the response.  `decoded`
is the outcome of `json.Unmarshal` of the response body into
`ErrorResponse`. -/
def Request (c : Client) (now : Int) (env : AuthEnv)
    (resp : Option HttpResponse) (decoded : Option ErrorResponse) :
    Except String String :=
  match (ensureAuthenticated c now env).1 with
  | some e => .error ("authentication failed: " ++ e)
  | none =>
    match resp with
    | none => .error "request failed"
    | some r => handleResponse r.status r.body decoded

/-- A client holding a session valid far beyond the renewal buffer at time
0, so `Request` can proceed without any authentication round-trip. -/
def cAuthed : Client :=
  Client.mk "/api" "pw" (30 * second) 3 (2 * second) (10 * second) false
    "sid-1" (3600 * second)

/-- The JSON body of an error envelope whose message field is empty. -/
def emptyMsgBody : String :=
  "\x7b\"error\":\x7b\"key\":\"bad_request\",\"message\":\"\",\"hint\":null\x7d,\"took\":0.003\x7d"

/-- The decoded form of `emptyMsgBody`: the envelope decodes, with an empty
message. -/
def emptyMsgEnvelope : ErrorResponse :=
  { error := { key := "bad_request", message := "", hint := none } }

/-- Claim C6 is false as stated: on a 400 response whose body decodes as the
structured error envelope but with an empty message field, Request embeds
the raw status and body, not the envelope's key/message/hint — the source
takes the structured branch only when the decoded message is non-empty. -/
theorem request_raw_error_on_empty_message :
    Request cAuthed 0 envProbeFail
        (some { status := 400, body := emptyMsgBody }) (some emptyMsgEnvelope) =
      .error (rawErrorMessage 400 emptyMsgBody) ∧
    rawErrorMessage 400 emptyMsgBody ≠ apiErrorMessage emptyMsgEnvelope := by
  constructor
  · rfl
  · decide

/-- Claim C6 as amended: every authenticated Request whose response status
is at least 400 returns an error and no response bytes; the error embeds the
envelope's key, message and optional hint exactly when the body decodes as
the structured envelope with a NON-EMPTY message, and otherwise (undecodable
body, or a decoded envelope whose message is empty) embeds the raw status
code and body. -/
theorem request_error_classification (c : Client) (now : Int) (env : AuthEnv)
    (r : HttpResponse) (decoded : Option ErrorResponse)
    (hauth : (ensureAuthenticated c now env).1 = none)
    (hstatus : 400 ≤ r.status) :
    (∃ msg, Request c now env (some r) decoded = .error msg) ∧
    (∀ e, decoded = some e → e.error.message ≠ "" →
      Request c now env (some r) decoded = .error (apiErrorMessage e)) ∧
    (∀ e, decoded = some e → e.error.message = "" →
      Request c now env (some r) decoded =
        .error (rawErrorMessage r.status r.body)) ∧
    (decoded = none →
      Request c now env (some r) decoded =
        .error (rawErrorMessage r.status r.body)) := by
  have hreq : Request c now env (some r) decoded =
      handleResponse r.status r.body decoded := by
    unfold Request
    rw [hauth]
  refine ⟨?_, ?_, ?_, ?_⟩
  · rw [hreq]
    unfold handleResponse
    rw [if_pos hstatus]
    cases decoded with
    | none => exact ⟨_, rfl⟩
    | some e =>
      by_cases hm : e.error.message = ""
      · exact ⟨rawErrorMessage r.status r.body, by simp [hm]⟩
      · exact ⟨apiErrorMessage e, by simp [hm]⟩
  · intro e he hm
    rw [hreq, he]
    unfold handleResponse
    rw [if_pos hstatus]
    simp [hm]
  · intro e he hm
    rw [hreq, he]
    unfold handleResponse
    rw [if_pos hstatus]
    simp [hm]
  · intro he
    rw [hreq, he]
    unfold handleResponse
    rw [if_pos hstatus]

/-- Witness for the amended C6: a 404 with a decodable non-empty-message
envelope yields the structured error; the same status with an undecodable
body yields the raw error. -/
theorem request_error_classification_witness :
    (∃ msg, Request cAuthed 0 envProbeFail
        (some { status := 404, body := "nf" })
        (some { error := { key := "not_found", message := "Not found" } }) =
      .error msg) ∧
    Request cAuthed 0 envProbeFail
        (some { status := 404, body := "nf" })
        (some { error := { key := "not_found", message := "Not found" } }) =
      .error (apiErrorMessage { error := { key := "not_found", message := "Not found" } }) ∧
    Request cAuthed 0 envProbeFail (some { status := 404, body := "nf" }) none =
      .error (rawErrorMessage 404 "nf") := by
  have h1 := request_error_classification cAuthed 0 envProbeFail
    { status := 404, body := "nf" }
    (some { error := { key := "not_found", message := "Not found" } })
    (by decide) (by decide)
  have h2 := request_error_classification cAuthed 0 envProbeFail
    { status := 404, body := "nf" } none (by decide) (by decide)
  exact ⟨h1.1,
         h1.2.1 { error := { key := "not_found", message := "Not found" } } rfl
           (by decide),
         h2.2.2.2 rfl⟩

/-- A JSON value, used to state what the config-patch body contains. -/
inductive JValue where
  | null : JValue
  | boolean : Bool → JValue
  | num : Int → JValue
  | str : String → JValue
  | arr : List JValue → JValue
  | obj : List (String × JValue) → JValue

/-- First-match key lookup in a JSON object's field list. -/
def jlookup (k : String) : List (String × JValue) → Option JValue
  | [] => none
  | (k', v) :: rest => if k' = k then some v else jlookup k rest

/-- The PATCH issued by `UpdateConfig`: relative path and JSON body. -/
structure PatchCall where
  path : String
  body : JValue

/-- UpdateConfig (source method `UpdateConfig`): PATCH to "config" with the
body `obj [config ↦ obj [section ↦ values]]` — the dynamic Go map literal
`map[string]interface\x7b\x7d` with the single section key. -/
def UpdateConfig (sec : String) (values : List (String × JValue)) :
    PatchCall :=
  { path := "config"
    body := JValue.obj [("config", JValue.obj [(sec, JValue.obj values)])] }

/-- UpdateConfigValue (source method `UpdateConfigValue`): a single-key
patch through UpdateConfig. -/
def UpdateConfigValue (sec key : String) (value : JValue) : PatchCall :=
  UpdateConfig sec [(key, value)]

/-- Claim C7: for every section name and value map, UpdateConfig sends a
PATCH to "config" whose body is exactly the config object containing the
single named section key and nothing else: any other section name is absent
from the patch, so no unrelated section of the remote configuration
document is included. -/
theorem updateConfig_patches_only_named_section (sec : String)
    (values : List (String × JValue)) (other : String)
    (hne : other ≠ sec) :
    (UpdateConfig sec values).path = "config" ∧
    ∃ sections, (UpdateConfig sec values).body =
        JValue.obj [("config", JValue.obj sections)] ∧
      sections.length = 1 ∧
      jlookup sec sections = some (JValue.obj values) ∧
      jlookup other sections = none := by
  refine ⟨rfl, [(sec, JValue.obj values)], rfl, rfl, ?_, ?_⟩
  · unfold jlookup
    rw [if_pos rfl]
  · unfold jlookup
    rw [if_neg fun h => hne h.symm]
    rfl

/-- Witness for C7: patching `privacy_level` in the `misc` section produces
a body whose config object holds the single `misc` key; the unrelated `dns`
section is absent. -/
theorem updateConfig_patches_only_named_section_witness :
    (UpdateConfig "misc" [("privacy_level", JValue.num 3)]).path = "config" ∧
    ∃ sections,
      (UpdateConfig "misc" [("privacy_level", JValue.num 3)]).body =
        JValue.obj [("config", JValue.obj sections)] ∧
      sections.length = 1 ∧
      jlookup "misc" sections =
        some (JValue.obj [("privacy_level", JValue.num 3)]) ∧
      jlookup "dns" sections = none :=
  updateConfig_patches_only_named_section "misc"
    [("privacy_level", JValue.num 3)] "dns" (by decide)

/-!
Concurrency model for `ensureAuthenticated` (claim C9).  N caller threads
each run the source's protocol over the shared session guarded by the RW
mutex: take the read lock, check validity, release; if stale, take the write
lock, re-check, renew if still stale, release.  Each lock-protected block is
one atomic transition — precisely the atomicity `sync.RWMutex` provides,
since every access to the session fields in the source happens under one of
the two locks.  Time is held fixed ("immediate succession" after expiry) and
the renewal protocol succeeds, installing a session valid beyond the
renewal buffer — the scenario of the claim.
-/

/-- Program counter of one caller thread inside `ensureAuthenticated`. -/
inductive PC where
  | start
  | reading
  | waitW
  | locked
  | done
deriving DecidableEq, Repr

/-- The reader/writer lock guarding `sid` / `sidExpiry`. -/
inductive LockSt where
  | free
  | readers : Nat → LockSt
  | writer
deriving DecidableEq, Repr

/-- Global state of the concurrent system: the lock, whether the stored
session currently passes the `sessionIsValid` check, the number of login
round-trips performed so far, and each thread's program counter. -/
structure SysState where
  lock : LockSt
  fresh : Bool
  logins : Nat
  threads : List PC
deriving DecidableEq, Repr

/-- One interleaving step of the system. -/
inductive SysStep : SysState → SysState → Prop where
  | rlockFree (s : SysState) (i : Nat)
      (hpc : s.threads.get? i = some PC.start)
      (hlock : s.lock = LockSt.free) :
      SysStep s { s with lock := LockSt.readers 1,
                         threads := s.threads.set i PC.reading }
  | rlockMore (s : SysState) (i n : Nat)
      (hpc : s.threads.get? i = some PC.start)
      (hlock : s.lock = LockSt.readers n) :
      SysStep s { s with lock := LockSt.readers (n + 1),
                         threads := s.threads.set i PC.reading }
  | readValid (s : SysState) (i n : Nat)
      (hpc : s.threads.get? i = some PC.reading)
      (hlock : s.lock = LockSt.readers (n + 1))
      (hfresh : s.fresh = true) :
      SysStep s { s with lock := if n = 0 then LockSt.free else LockSt.readers n,
                         threads := s.threads.set i PC.done }
  | readStale (s : SysState) (i n : Nat)
      (hpc : s.threads.get? i = some PC.reading)
      (hlock : s.lock = LockSt.readers (n + 1))
      (hfresh : s.fresh = false) :
      SysStep s { s with lock := if n = 0 then LockSt.free else LockSt.readers n,
                         threads := s.threads.set i PC.waitW }
  | wlock (s : SysState) (i : Nat)
      (hpc : s.threads.get? i = some PC.waitW)
      (hlock : s.lock = LockSt.free) :
      SysStep s { s with lock := LockSt.writer,
                         threads := s.threads.set i PC.locked }
  | recheckValid (s : SysState) (i : Nat)
      (hpc : s.threads.get? i = some PC.locked)
      (hlock : s.lock = LockSt.writer)
      (hfresh : s.fresh = true) :
      SysStep s { s with lock := LockSt.free,
                         threads := s.threads.set i PC.done }
  | renew (s : SysState) (i : Nat)
      (hpc : s.threads.get? i = some PC.locked)
      (hlock : s.lock = LockSt.writer)
      (hfresh : s.fresh = false) :
      SysStep s { s with lock := LockSt.free, fresh := true,
                         logins := s.logins + 1,
                         threads := s.threads.set i PC.done }

/-- Initial state for claim C9: n threads all about to request access, the
session stale (just expired), no renewal performed yet. -/
def sysInit (n : Nat) : SysState :=
  { lock := LockSt.free, fresh := false, logins := 0,
    threads := List.replicate n PC.start }

/-- The safety invariant: at most one renewal ever happens, the session is
fresh exactly when a renewal happened, and any finished thread has seen a
renewal happen. -/
def SysInv (s : SysState) : Prop :=
  s.logins ≤ 1 ∧
  (s.fresh = true ↔ s.logins = 1) ∧
  (∀ pc ∈ s.threads, pc = PC.done → s.logins = 1)

/-- Every step of the system preserves the invariant. -/
theorem sysStep_preserves_inv (s s' : SysState) (hstep : SysStep s s')
    (hinv : SysInv s) : SysInv s' := by
  obtain ⟨hle, hiff, hdone⟩ := hinv
  cases hstep with
  | rlockFree i hpc hlock =>
    refine ⟨hle, hiff, ?_⟩
    intro pc hmem hpcd
    rcases List.mem_or_eq_of_mem_set hmem with hold | hnew
    · exact hdone pc hold hpcd
    · simp [hnew] at hpcd
  | rlockMore i n hpc hlock =>
    refine ⟨hle, hiff, ?_⟩
    intro pc hmem hpcd
    rcases List.mem_or_eq_of_mem_set hmem with hold | hnew
    · exact hdone pc hold hpcd
    · simp [hnew] at hpcd
  | readValid i n hpc hlock hfresh =>
    refine ⟨hle, hiff, ?_⟩
    intro pc hmem hpcd
    rcases List.mem_or_eq_of_mem_set hmem with hold | hnew
    · exact hdone pc hold hpcd
    · exact hiff.mp hfresh
  | readStale i n hpc hlock hfresh =>
    refine ⟨hle, hiff, ?_⟩
    intro pc hmem hpcd
    rcases List.mem_or_eq_of_mem_set hmem with hold | hnew
    · exact hdone pc hold hpcd
    · simp [hnew] at hpcd
  | wlock i hpc hlock =>
    refine ⟨hle, hiff, ?_⟩
    intro pc hmem hpcd
    rcases List.mem_or_eq_of_mem_set hmem with hold | hnew
    · exact hdone pc hold hpcd
    · simp [hnew] at hpcd
  | recheckValid i hpc hlock hfresh =>
    refine ⟨hle, hiff, ?_⟩
    intro pc hmem hpcd
    rcases List.mem_or_eq_of_mem_set hmem with hold | hnew
    · exact hdone pc hold hpcd
    · exact hiff.mp hfresh
  | renew i hpc hlock hfresh =>
    have hz : s.logins = 0 := by
      rcases Nat.lt_or_ge s.logins 1 with h1 | h1
      · omega
      · have : s.logins = 1 := by omega
        exact absurd (hiff.mpr this) (by simp [hfresh])
    refine ⟨?_, ?_, ?_⟩
    · show s.logins + 1 ≤ 1
      omega
    · show true = true ↔ s.logins + 1 = 1
      simp [hz]
    · intro pc _ _
      show s.logins + 1 = 1
      omega

/-- The invariant holds along every execution from the initial state. -/
theorem sysInv_reachable (n : Nat) (s : SysState)
    (hreach : Relation.ReflTransGen SysStep (sysInit n) s) : SysInv s := by
  induction hreach with
  | refl =>
    refine ⟨by simp [sysInit], by simp [sysInit], ?_⟩
    intro pc hmem hpcd
    simp only [sysInit] at hmem
    rw [List.eq_of_mem_replicate hmem] at hpcd
    cases hpcd
  | tail _ hstep ih => exact sysStep_preserves_inv _ _ hstep ih

/-- Claim C9: when N (≥ 1) concurrent callers all invoke the authenticated
gate after the session has become stale, every execution of the
double-checked-locking protocol in which all callers have finished performs
the session-renewal login exactly once. -/
theorem concurrent_renewal_once (n : Nat) (s : SysState)
    (hreach : Relation.ReflTransGen SysStep (sysInit n) s)
    (hn : 0 < n)
    (hlen : s.threads.length = n)
    (hdone : ∀ pc ∈ s.threads, pc = PC.done) :
    s.logins = 1 := by
  obtain ⟨_, _, hd⟩ := sysInv_reachable n s hreach
  have hne : s.threads ≠ [] := by
    intro hnil
    rw [hnil] at hlen
    simp at hlen
    omega
  obtain ⟨pc, hpc⟩ := List.exists_mem_of_ne_nil s.threads hne
  exact hd pc hpc (hdone pc hpc)

/-- Witness for C9: the four-step execution of a single caller from the
stale initial state ends with all callers done and exactly one login. -/
theorem concurrent_renewal_once_witness :
    (SysState.mk LockSt.free true 1 [PC.done]).logins = 1 := by
  have s1 : SysStep (sysInit 1)
      (SysState.mk (LockSt.readers 1) false 0 [PC.reading]) := by
    have := SysStep.rlockFree (sysInit 1) 0 (by decide) (by decide)
    simpa [sysInit] using this
  have s2 : SysStep (SysState.mk (LockSt.readers 1) false 0 [PC.reading])
      (SysState.mk LockSt.free false 0 [PC.waitW]) := by
    have := SysStep.readStale (SysState.mk (LockSt.readers 1) false 0 [PC.reading])
      0 0 (by decide) (by decide) (by decide)
    simpa using this
  have s3 : SysStep (SysState.mk LockSt.free false 0 [PC.waitW])
      (SysState.mk LockSt.writer false 0 [PC.locked]) := by
    have := SysStep.wlock (SysState.mk LockSt.free false 0 [PC.waitW])
      0 (by decide) (by decide)
    simpa using this
  have s4 : SysStep (SysState.mk LockSt.writer false 0 [PC.locked])
      (SysState.mk LockSt.free true 1 [PC.done]) := by
    have := SysStep.renew (SysState.mk LockSt.writer false 0 [PC.locked])
      0 (by decide) (by decide) (by decide)
    simpa using this
  exact concurrent_renewal_once 1 (SysState.mk LockSt.free true 1 [PC.done])
    (Relation.ReflTransGen.tail
      (Relation.ReflTransGen.tail
        (Relation.ReflTransGen.tail
          (Relation.ReflTransGen.tail Relation.ReflTransGen.refl s1) s2) s3) s4)
    (by decide) (by decide) (by decide)

end Pihole
